import Mathlib

/-!
Verification of the `remoteinference` client library
(`src/remoteinference/models/models.py`, class `LlamaCPPLLM`).

The client is embedded shallowly:

* JSON values are an inductive `Json`; JSON numbers are modelled as
  rationals, since the client only carries numeric values (temperature,
  token limits) and never computes with them.
* Python dicts are association lists with Python's semantics: a dict
  display `{k1: v1, ..., **kwargs}` inserts keys left to right, a later
  binding of an existing key overwriting it in place (`dictInsert`,
  `dictMerge`), and lookup takes the latest binding (`dictLookup`).
* The HTTP transport (`requests.post`) is a parameter
  `server : HTTPRequest → TransportResult`: either a response (status
  code plus a body that is empty or decodes to some `Json`) or a raised
  `requests.RequestException`.  `response.raise_for_status()` raises for
  status codes in [400, 600); since the code catches that exception after
  the real response object is already bound, raising only affects logging.
* Logging is modelled by one observable bit, `errorLogged`: whether the
  `except` branch of `__send_request` ran (`logger.error` executed).
* The requests a call issues are collected in `requestsSent`.
* `completion`'s unguarded `response["content"]` subscript is modelled by
  `subscriptContent`, returning `Except PyError Json`: subscripting
  `None` or a non-dict raises `TypeError`, a dict without the key raises
  `KeyError`.
-/

namespace RemoteInference

/-- JSON values as decoded by `response.json()` / serialized from the
payload dict.  Numbers are rationals (the client never computes with
them, so float bit-level behavior is irrelevant). -/
inductive Json where
  | null
  | bool (b : Bool)
  | num (q : ℚ)
  | str (s : String)
  | arr (elems : List Json)
  | obj (fields : List (String × Json))

/-- Python dict lookup on an association list: the latest (rightmost)
binding of a key wins, matching both dict insertion semantics and
`json.loads` on duplicate keys. -/
def dictLookup : List (String × Json) → String → Option Json
  | [], _ => none
  | p :: rest, k =>
    match dictLookup rest k with
    | some v => some v
    | none => if p.1 = k then some p.2 else none

/-- Whether a key is present in the dict. -/
def containsKey (d : List (String × Json)) (k : String) : Bool :=
  d.any (fun p => p.1 = k)

/-- Python dict insertion `d[k] = v`: overwrite in place if the key is
present, otherwise append at the end (insertion order preserved). -/
def dictInsert (d : List (String × Json)) (k : String) (v : Json) :
    List (String × Json) :=
  if containsKey d k then d.map (fun p => if p.1 = k then (k, v) else p)
  else d ++ [(k, v)]

/-- Evaluation of a Python dict display `{<entries of d>, **kw}`: start
from `d` and insert the entries of `kw` left to right, so keys of `kw`
shadow keys of `d`. -/
def dictMerge (d kw : List (String × Json)) : List (String × Json) :=
  kw.foldl (fun acc p => dictInsert acc p.1 p.2) d

/-- Modelled from the spec: `ServerConfig` comes from
`remoteinference.util.config`, which is not among the sources at hand.
Per the spec it is an immutable value with `serverAddress` (host string),
`serverPort` (integer) and `apiKey` (bearer-credential string). -/
structure ServerConfig where
  server_address : String
  server_port : Int
  api_key : String

/-- `COMPLETION_ENDPOINT = "completion"` (models.py line 9). -/
def COMPLETION_ENDPOINT : String := "completion"

/-- `CHAT_ENDPOINT = "v1/chat/completions"` (models.py line 10). -/
def CHAT_ENDPOINT : String := "v1/chat/completions"

/-- An HTTP request as assembled by `__send_request` and handed to
`requests.post`: method, target URL, header dict, JSON payload. -/
structure HTTPRequest where
  method : String
  url : String
  headers : List (String × String)
  body : List (String × Json)

/-- An HTTP response.  `content = none` models an empty (falsy) body;
`content = some j` models a non-empty body whose JSON decoding is `j`. -/
structure HTTPResponse where
  status_code : Nat
  content : Option Json

/-- Outcome of `requests.post`: either a response object or a raised
`requests.RequestException` (connection refused, timeout, DNS failure). -/
inductive TransportResult where
  | success (resp : HTTPResponse)
  | failure

/-- What `__send_request` produces: the value returned to the caller,
whether `logger.error` ran, and the requests that went out on the wire. -/
structure SendResult where
  result : Option Json
  errorLogged : Bool
  requestsSent : List HTTPRequest

/-- The header dict of `__send_request` (models.py lines 100-104). -/
def buildHeaders (cfg : ServerConfig) : List (String × String) :=
  [("accept", "application/json"),
   ("content-type", "application/json"),
   ("Authorization", "Bearer " ++ cfg.api_key)]

/-- The f-string `server_url` (models.py lines 106-107; the backslash is
a line continuation inside the literal, contributing no characters). -/
def buildURL (cfg : ServerConfig) (api_endpoint : String) : String :=
  "http://" ++ cfg.server_address ++ ":" ++ toString cfg.server_port
    ++ "/" ++ api_endpoint

/-- `response.raise_for_status()` raises `requests.HTTPError` exactly for
client-error (4xx) and server-error (5xx) status codes. -/
def raisesForStatus (code : Nat) : Bool :=
  decide (400 ≤ code ∧ code < 600)

/-- The placeholder `requests.Response()` of models.py lines 113-114:
status set to `HTTPStatus.NO_CONTENT` (204); a fresh `Response` has no
raw stream, so its `content` is falsy (empty). -/
def initResponse : HTTPResponse := ⟨204, none⟩

/-- The request `__send_request` assembles before the `try` block. -/
def buildRequest (cfg : ServerConfig) (payload : List (String × Json))
    (api_endpoint : String) : HTTPRequest :=
  ⟨"POST", buildURL cfg api_endpoint, buildHeaders cfg, payload⟩

/-- The response object in scope after the `try/except` block:
on a transport failure the placeholder initialized before the `try`
survives; on a completed POST the real response is bound to `response`
before `raise_for_status()` can raise, and the raised `HTTPError` is
caught, so the real response stays in scope whatever its status. -/
def effectiveResponse : TransportResult → HTTPResponse
  | .failure => initResponse
  | .success resp => resp

/-- Whether the `except requests.RequestException` branch runs (and so
`logger.error` fires): on a transport failure, or when
`raise_for_status()` raises on the received status. -/
def exceptBranchRan : TransportResult → Bool
  | .failure => true
  | .success resp => raisesForStatus resp.status_code

/-- The final `if response.content: return response.json() else: return
None` of `__send_request` (models.py lines 129-133), applied to the
transport outcome. -/
def sendResultOf (tr : TransportResult) : Option Json :=
  let response := effectiveResponse tr
  if response.content.isSome then response.content else none

/-- `LlamaCPPLLM.__send_request` (models.py lines 86-133), parameterized
by the transport `server`. -/
def sendRequest (cfg : ServerConfig) (server : HTTPRequest → TransportResult)
    (payload : List (String × Json)) (api_endpoint : String) : SendResult :=
  let request := buildRequest cfg payload api_endpoint
  let tr := server request
  ⟨sendResultOf tr, exceptBranchRan tr, [request]⟩

/-- Python exceptions that can escape `completion`'s subscript of the
value `__send_request` returned. -/
inductive PyError where
  | typeError
  | keyError

/-- The subscript `response["content"]` of models.py lines 53-54:
`None["content"]` and subscripting any non-dict by a string raise
`TypeError`; a dict without the key raises `KeyError`. -/
def subscriptContent : Option Json → Except PyError Json
  | none => .error .typeError
  | some (Json.obj fields) =>
    match dictLookup fields "content" with
    | some v => .ok v
    | none => .error .keyError
  | some _ => .error .typeError

/-- Outcome of a `completion` call: its return value or escaped
exception, the logging bit, and the requests sent. -/
structure CompletionResult where
  result : Except PyError Json
  errorLogged : Bool
  requestsSent : List HTTPRequest

/-- The payload dict of `completion` (models.py lines 44-49):
`{"prompt": prompt, "temperature": temperature, "n_predict": max_tokens,
**kwargs}`. -/
def completionPayload (prompt : String) (temperature : ℚ) (max_tokens : Int)
    (kwargs : List (String × Json)) : List (String × Json) :=
  dictMerge
    [("prompt", .str prompt), ("temperature", .num temperature),
     ("n_predict", .num (max_tokens : ℚ))]
    kwargs

/-- `LlamaCPPLLM.completion` (models.py lines 25-54). -/
def completion (cfg : ServerConfig) (server : HTTPRequest → TransportResult)
    (prompt : String) (temperature : ℚ) (max_tokens : Int)
    (kwargs : List (String × Json)) : CompletionResult :=
  let payload := completionPayload prompt temperature max_tokens kwargs
  let sent := sendRequest cfg server payload COMPLETION_ENDPOINT
  ⟨subscriptContent sent.result, sent.errorLogged, sent.requestsSent⟩

/-- Outcome of a `chat_completion` call.  Its result type is
`Option Json`: the call returns whatever `__send_request` produced and
performs no subscript, so no exception can arise past `__send_request`. -/
structure ChatResult where
  result : Option Json
  errorLogged : Bool
  requestsSent : List HTTPRequest

/-- The `messages: list[dict[str, str]]` argument serialized into JSON. -/
def jsonOfMessages (messages : List (List (String × String))) : Json :=
  .arr (messages.map (fun m => .obj (m.map (fun p => (p.1, .str p.2)))))

/-- The payload dict of `chat_completion` (models.py lines 75-78):
`{"messages": messages, "temperature": temperature,
"max_tokens": max_tokens, **kwargs}`. -/
def chatPayload (messages : List (List (String × String))) (temperature : ℚ)
    (max_tokens : Int) (kwargs : List (String × Json)) :
    List (String × Json) :=
  dictMerge
    [("messages", jsonOfMessages messages), ("temperature", .num temperature),
     ("max_tokens", .num (max_tokens : ℚ))]
    kwargs

/-- `LlamaCPPLLM.chat_completion` (models.py lines 56-84). -/
def chat_completion (cfg : ServerConfig)
    (server : HTTPRequest → TransportResult)
    (messages : List (List (String × String))) (temperature : ℚ)
    (max_tokens : Int) (kwargs : List (String × Json)) : ChatResult :=
  let payload := chatPayload messages temperature max_tokens kwargs
  let sent := sendRequest cfg server payload CHAT_ENDPOINT
  ⟨sent.result, sent.errorLogged, sent.requestsSent⟩

/-- Two successive `completion` calls with identical arguments against a
possibly stateful transport: the first call runs against the server in
state `s0`; the single request it makes advances the state, and the
second call runs against the advanced state. -/
def completionTwice {σ : Type} (cfg : ServerConfig)
    (server : σ → HTTPRequest → TransportResult × σ) (s0 : σ)
    (prompt : String) (temperature : ℚ) (max_tokens : Int)
    (kwargs : List (String × Json)) :
    Except PyError Json × Except PyError Json :=
  let request := buildRequest cfg
    (completionPayload prompt temperature max_tokens kwargs)
    COMPLETION_ENDPOINT
  let s1 := (server s0 request).2
  ((completion cfg (fun q => (server s0 q).1) prompt temperature max_tokens
      kwargs).result,
   (completion cfg (fun q => (server s1 q).1) prompt temperature max_tokens
      kwargs).result)

/-! ### Dictionary lemmas -/

theorem dictLookup_of_containsKey_false {d : List (String × Json)}
    {k : String} (h : containsKey d k = false) : dictLookup d k = none := by
  induction d with
  | nil => rfl
  | cons p rest ih =>
    simp only [containsKey, List.any_cons, Bool.or_eq_false_iff,
      decide_eq_false_iff_not] at h
    simp only [dictLookup, ih (by simpa [containsKey] using h.2)]
    simp [h.1]

theorem map_overwrite_of_containsKey_false {d : List (String × Json)}
    {k : String} {v : Json} (h : containsKey d k = false) :
    d.map (fun p => if p.1 = k then (k, v) else p) = d := by
  induction d with
  | nil => rfl
  | cons p rest ih =>
    simp only [containsKey, List.any_cons, Bool.or_eq_false_iff,
      decide_eq_false_iff_not] at h
    simp only [List.map_cons, if_neg h.1,
      ih (by simpa [containsKey] using h.2)]

theorem dictLookup_map_overwrite_ne {d : List (String × Json)}
    {k k' : String} {v : Json} (hne : k ≠ k') :
    dictLookup (d.map (fun p => if p.1 = k then (k, v) else p)) k'
      = dictLookup d k' := by
  induction d with
  | nil => rfl
  | cons p rest ih =>
    simp only [List.map_cons, dictLookup, ih]
    cases hrest : dictLookup rest k' with
    | some w => rfl
    | none =>
      by_cases hp : p.1 = k
      · simp [hp, hne]
      · simp [hp]

theorem dictLookup_map_overwrite_eq {d : List (String × Json)}
    {k : String} {v : Json} (h : containsKey d k = true) :
    dictLookup (d.map (fun p => if p.1 = k then (k, v) else p)) k
      = some v := by
  induction d with
  | nil => simp [containsKey] at h
  | cons p rest ih =>
    by_cases hrest : containsKey rest k
    · simp only [List.map_cons, dictLookup, ih hrest]
    · have hmap := map_overwrite_of_containsKey_false
        (d := rest) (k := k) (v := v) (by simpa using hrest)
      have hlook := dictLookup_of_containsKey_false
        (d := rest) (k := k) (by simpa using hrest)
      have hp : p.1 = k := by
        simp only [containsKey, List.any_cons, Bool.or_eq_true,
          decide_eq_true_eq] at h
        rcases h with h | h
        · exact h
        · exact absurd h (by simpa [containsKey] using hrest)
      simp [List.map_cons, dictLookup, hmap, hlook, hp]

theorem dictLookup_cons (p : String × Json) (rest : List (String × Json))
    (k : String) :
    dictLookup (p :: rest) k
      = match dictLookup rest k with
        | some v => some v
        | none => if p.1 = k then some p.2 else none := rfl

theorem dictLookup_append_single (d : List (String × Json)) (k k' : String)
    (v : Json) :
    dictLookup (d ++ [(k, v)]) k'
      = if k = k' then some v else dictLookup d k' := by
  induction d with
  | nil => simp [dictLookup_cons, dictLookup]
  | cons p rest ih =>
    rw [List.cons_append, dictLookup_cons, ih, dictLookup_cons]
    by_cases hk : k = k'
    · simp [hk]
    · simp [hk]

theorem dictLookup_dictInsert (d : List (String × Json)) (k k' : String)
    (v : Json) :
    dictLookup (dictInsert d k v) k'
      = if k = k' then some v else dictLookup d k' := by
  unfold dictInsert
  by_cases hc : containsKey d k
  · simp only [hc, if_true]
    by_cases hk : k = k'
    · subst hk
      simp [dictLookup_map_overwrite_eq hc]
    · simp [hk, dictLookup_map_overwrite_ne hk]
  · simp only [Bool.not_eq_true] at hc
    simp only [hc, Bool.false_eq_true, if_false]
    exact dictLookup_append_single d k k' v

theorem dictLookup_dictMerge (d kw : List (String × Json)) (k : String) :
    dictLookup (dictMerge d kw) k
      = match dictLookup kw k with
        | some v => some v
        | none => dictLookup d k := by
  induction kw generalizing d with
  | nil => simp [dictMerge, dictLookup]
  | cons p kw ih =>
    show dictLookup (dictMerge (dictInsert d p.1 p.2) kw) k = _
    rw [ih, dictLookup_cons]
    cases hkw : dictLookup kw k with
    | some v => rfl
    | none =>
      rw [dictLookup_dictInsert]
      by_cases hp : p.1 = k
      · simp [hp]
      · simp [hp]

/-! ### Concrete fixtures for witnesses and counterexamples -/

/-- A concrete server configuration. -/
def cfg₀ : ServerConfig := ⟨"localhost", 8080, "secret"⟩

/-- A stub transport that always fails (connection refused / timeout /
DNS failure: `requests.post` raises `RequestException`). -/
def srvDown : HTTPRequest → TransportResult := fun _ => .failure

/-- A stub server replying 200 with body `{"content": "hello"}`. -/
def srvHello : HTTPRequest → TransportResult :=
  fun _ => .success ⟨200, some (.obj [("content", .str "hello")])⟩

/-- A stub server replying 500 with the non-empty error body
`{"content": "err"}`. -/
def srv500 : HTTPRequest → TransportResult :=
  fun _ => .success ⟨500, some (.obj [("content", .str "err")])⟩

/-- A stub server replying 200 with body `{}` (no `"content"` key). -/
def srvNoField : HTTPRequest → TransportResult :=
  fun _ => .success ⟨200, some (.obj [])⟩

/-- A stub server replying 200 with an empty body. -/
def srvEmpty : HTTPRequest → TransportResult :=
  fun _ => .success ⟨200, none⟩

/-- A stateful stub transport: counts requests in its state, but its
response is a deterministic function of the request alone. -/
def srvStateful : Nat → HTTPRequest → TransportResult × Nat :=
  fun s _ => (.success ⟨200, some (.obj [("content", .str "hello")])⟩, s + 1)

/-! ### Claim theorems -/

/-- Claim C2: `completion` sends a single POST to the path `completion`
whose JSON body is exactly `{"prompt": prompt, "temperature": temperature,
"n_predict": max_tokens}` merged with the extra options, an extra option
shadowing a fixed key because extras are merged last. -/
theorem completion_sends_single_merged_post (cfg : ServerConfig)
    (server : HTTPRequest → TransportResult) (prompt : String)
    (temperature : ℚ) (max_tokens : Int) (kwargs : List (String × Json)) :
    (completion cfg server prompt temperature max_tokens kwargs).requestsSent
      = [buildRequest cfg
          (completionPayload prompt temperature max_tokens kwargs)
          COMPLETION_ENDPOINT] ∧
    ∀ req ∈ (completion cfg server prompt temperature max_tokens
        kwargs).requestsSent,
      req.method = "POST" ∧
      req.url = buildURL cfg COMPLETION_ENDPOINT ∧
      req.body = dictMerge
        [("prompt", .str prompt), ("temperature", .num temperature),
         ("n_predict", .num (max_tokens : ℚ))] kwargs ∧
      ∀ k, dictLookup req.body k
        = match dictLookup kwargs k with
          | some v => some v
          | none => dictLookup
              [("prompt", .str prompt), ("temperature", .num temperature),
               ("n_predict", .num (max_tokens : ℚ))] k := by
  refine ⟨rfl, ?_⟩
  intro req hreq
  have hl : (completion cfg server prompt temperature max_tokens
      kwargs).requestsSent
      = [buildRequest cfg
          (completionPayload prompt temperature max_tokens kwargs)
          COMPLETION_ENDPOINT] := rfl
  rw [hl] at hreq
  have heq := List.mem_singleton.mp hreq
  subst heq
  refine ⟨rfl, rfl, rfl, ?_⟩
  intro k
  exact dictLookup_dictMerge _ kwargs k

/-- Witness for C2: concrete call where the extra option
`("temperature", 2)` shadows the fixed `temperature` field. -/
theorem completion_sends_single_merged_post_witness :
    dictLookup (buildRequest cfg₀
      (completionPayload "p" 1 5 [("temperature", Json.num 2)])
      COMPLETION_ENDPOINT).body "temperature" = some (Json.num 2) := by
  have h := (completion_sends_single_merged_post cfg₀ srvDown "p" 1 5
      [("temperature", Json.num 2)]).2
    (buildRequest cfg₀ (completionPayload "p" 1 5
      [("temperature", Json.num 2)]) COMPLETION_ENDPOINT)
    (by exact List.mem_singleton.mpr rfl)
  rw [h.2.2.2 "temperature"]
  rfl

/-- Claim C3: `chat_completion` sends a single POST to the path
`v1/chat/completions` whose JSON body is exactly `{"messages": messages,
"temperature": temperature, "max_tokens": max_tokens}` merged with the
extra options, extras taking precedence on key collision. -/
theorem chat_sends_single_merged_post (cfg : ServerConfig)
    (server : HTTPRequest → TransportResult)
    (messages : List (List (String × String))) (temperature : ℚ)
    (max_tokens : Int) (kwargs : List (String × Json)) :
    (chat_completion cfg server messages temperature max_tokens
        kwargs).requestsSent
      = [buildRequest cfg
          (chatPayload messages temperature max_tokens kwargs)
          CHAT_ENDPOINT] ∧
    ∀ req ∈ (chat_completion cfg server messages temperature max_tokens
        kwargs).requestsSent,
      req.method = "POST" ∧
      req.url = buildURL cfg CHAT_ENDPOINT ∧
      req.body = dictMerge
        [("messages", jsonOfMessages messages),
         ("temperature", .num temperature),
         ("max_tokens", .num (max_tokens : ℚ))] kwargs ∧
      ∀ k, dictLookup req.body k
        = match dictLookup kwargs k with
          | some v => some v
          | none => dictLookup
              [("messages", jsonOfMessages messages),
               ("temperature", .num temperature),
               ("max_tokens", .num (max_tokens : ℚ))] k := by
  refine ⟨rfl, ?_⟩
  intro req hreq
  have hl : (chat_completion cfg server messages temperature max_tokens
      kwargs).requestsSent
      = [buildRequest cfg
          (chatPayload messages temperature max_tokens kwargs)
          CHAT_ENDPOINT] := rfl
  rw [hl] at hreq
  have heq := List.mem_singleton.mp hreq
  subst heq
  refine ⟨rfl, rfl, rfl, ?_⟩
  intro k
  exact dictLookup_dictMerge _ kwargs k

/-- Witness for C3: concrete call where the extra option
`("max_tokens", 9)` shadows the fixed `max_tokens` field. -/
theorem chat_sends_single_merged_post_witness :
    dictLookup (buildRequest cfg₀
      (chatPayload [[("role", "user"), ("content", "hi")]] 1 5
        [("max_tokens", Json.num 9)])
      CHAT_ENDPOINT).body "max_tokens" = some (Json.num 9) := by
  have h := (chat_sends_single_merged_post cfg₀ srvDown
      [[("role", "user"), ("content", "hi")]] 1 5
      [("max_tokens", Json.num 9)]).2
    (buildRequest cfg₀ (chatPayload [[("role", "user"), ("content", "hi")]]
      1 5 [("max_tokens", Json.num 9)]) CHAT_ENDPOINT)
    (by exact List.mem_singleton.mpr rfl)
  rw [h.2.2.2 "max_tokens"]
  rfl

/-- Claim C4: every request issued by either public call carries exactly
the headers `accept: application/json`, `content-type: application/json`
and `Authorization: Bearer <apiKey>` with the configured key verbatim,
and targets `http://<serverAddress>:<serverPort>/<endpointPath>`. -/
theorem requests_carry_exact_headers_and_url (cfg : ServerConfig)
    (server : HTTPRequest → TransportResult) (prompt : String)
    (temperature : ℚ) (max_tokens : Int) (kwargs : List (String × Json))
    (messages : List (List (String × String))) (ctemperature : ℚ)
    (cmax_tokens : Int) (ckwargs : List (String × Json)) :
    (∀ req ∈ (completion cfg server prompt temperature max_tokens
        kwargs).requestsSent,
      req.headers = [("accept", "application/json"),
        ("content-type", "application/json"),
        ("Authorization", "Bearer " ++ cfg.api_key)] ∧
      req.url = "http://" ++ cfg.server_address ++ ":"
        ++ toString cfg.server_port ++ "/" ++ COMPLETION_ENDPOINT) ∧
    (∀ req ∈ (chat_completion cfg server messages ctemperature cmax_tokens
        ckwargs).requestsSent,
      req.headers = [("accept", "application/json"),
        ("content-type", "application/json"),
        ("Authorization", "Bearer " ++ cfg.api_key)] ∧
      req.url = "http://" ++ cfg.server_address ++ ":"
        ++ toString cfg.server_port ++ "/" ++ CHAT_ENDPOINT) := by
  constructor
  · intro req hreq
    have hl : (completion cfg server prompt temperature max_tokens
        kwargs).requestsSent
        = [buildRequest cfg
            (completionPayload prompt temperature max_tokens kwargs)
            COMPLETION_ENDPOINT] := rfl
    rw [hl] at hreq
    have heq := List.mem_singleton.mp hreq
    subst heq
    exact ⟨rfl, rfl⟩
  · intro req hreq
    have hl : (chat_completion cfg server messages ctemperature
        cmax_tokens ckwargs).requestsSent
        = [buildRequest cfg
            (chatPayload messages ctemperature cmax_tokens ckwargs)
            CHAT_ENDPOINT] := rfl
    rw [hl] at hreq
    have heq := List.mem_singleton.mp hreq
    subst heq
    exact ⟨rfl, rfl⟩

/-- Witness for C4: the concrete completion request to `cfg₀` carries the
bearer header with the configured key and the expected URL. -/
theorem requests_carry_exact_headers_and_url_witness :
    (buildRequest cfg₀ (completionPayload "p" 1 5 [])
        COMPLETION_ENDPOINT).headers
      = [("accept", "application/json"),
         ("content-type", "application/json"),
         ("Authorization", "Bearer secret")] ∧
    (buildRequest cfg₀ (completionPayload "p" 1 5 [])
        COMPLETION_ENDPOINT).url
      = "http://localhost:8080/completion" := by
  have h := ((requests_carry_exact_headers_and_url cfg₀ srvDown "p" 1 5 []
      [] 1 5 []).1
    (buildRequest cfg₀ (completionPayload "p" 1 5 []) COMPLETION_ENDPOINT)
    (by exact List.mem_singleton.mpr rfl))
  exact ⟨by rw [h.1]; rfl, by rw [h.2]; rfl⟩

/-- Claim C6: when the server answers a completion request with a
successful status and a non-empty JSON-object body containing the key
`"content"`, `completion` returns exactly the value stored under
`"content"`. -/
theorem completion_returns_content_field (cfg : ServerConfig)
    (server : HTTPRequest → TransportResult) (prompt : String)
    (temperature : ℚ) (max_tokens : Int) (kwargs : List (String × Json))
    (r : HTTPResponse) (fields : List (String × Json)) (v : Json)
    (hsrv : server (buildRequest cfg
        (completionPayload prompt temperature max_tokens kwargs)
        COMPLETION_ENDPOINT) = .success r)
    (hst : 200 ≤ r.status_code) (hst2 : r.status_code < 300)
    (hbody : r.content = some (Json.obj fields))
    (hfield : dictLookup fields "content" = some v) :
    (completion cfg server prompt temperature max_tokens kwargs).result
      = Except.ok v := by
  have hres : (completion cfg server prompt temperature max_tokens
      kwargs).result
      = subscriptContent (sendResultOf (server (buildRequest cfg
          (completionPayload prompt temperature max_tokens kwargs)
          COMPLETION_ENDPOINT))) := rfl
  rw [hres, hsrv]
  simp [sendResultOf, effectiveResponse, hbody, subscriptContent, hfield]

/-- Witness for C6: a 200 response with body `{"content": "hello"}`
makes `completion` return `"hello"`. -/
theorem completion_returns_content_field_witness :
    (completion cfg₀ srvHello "p" 1 5 []).result
      = Except.ok (Json.str "hello") :=
  completion_returns_content_field cfg₀ srvHello "p" 1 5 []
    ⟨200, some (.obj [("content", .str "hello")])⟩
    [("content", .str "hello")] (.str "hello")
    rfl (by decide) (by decide) rfl rfl

/-- Claim C7: on a successful response, `chat_completion` returns the
full decoded JSON body unmodified when the body is non-empty, and the
absence marker `none` when the body is empty; its result type is
`Option Json`, so no exception can arise on this path. -/
theorem chat_completion_returns_body_verbatim (cfg : ServerConfig)
    (server : HTTPRequest → TransportResult)
    (messages : List (List (String × String))) (temperature : ℚ)
    (max_tokens : Int) (kwargs : List (String × Json)) (r : HTTPResponse)
    (hsrv : server (buildRequest cfg
        (chatPayload messages temperature max_tokens kwargs)
        CHAT_ENDPOINT) = .success r)
    (hst : 200 ≤ r.status_code) (hst2 : r.status_code < 300) :
    (chat_completion cfg server messages temperature max_tokens
        kwargs).result = r.content := by
  have hres : (chat_completion cfg server messages temperature max_tokens
      kwargs).result
      = sendResultOf (server (buildRequest cfg
          (chatPayload messages temperature max_tokens kwargs)
          CHAT_ENDPOINT)) := rfl
  rw [hres, hsrv]
  cases hc : r.content with
  | none => simp [sendResultOf, effectiveResponse, hc]
  | some j => simp [sendResultOf, effectiveResponse, hc]

/-- Witness for C7: a 200 response with an empty body makes
`chat_completion` return `none`. -/
theorem chat_completion_returns_body_verbatim_witness :
    (chat_completion cfg₀ srvEmpty [] 1 5 []).result = none :=
  chat_completion_returns_body_verbatim cfg₀ srvEmpty [] 1 5 []
    ⟨200, none⟩ rfl (by decide) (by decide)

/-- Claim C9: the value `__send_request` returns is determined solely by
whether the effective response body is empty — a non-empty body is
decoded and returned even when the status is non-successful (the caught
`raise_for_status` leaves the real response in scope), and an empty body
yields `none` (in particular on a transport failure, where the
placeholder response with empty content survives). -/
theorem sendRequest_result_ignores_status (cfg : ServerConfig)
    (server : HTTPRequest → TransportResult)
    (payload : List (String × Json)) (api_endpoint : String) :
    (∀ r, server (buildRequest cfg payload api_endpoint) = .success r →
      (sendRequest cfg server payload api_endpoint).result = r.content) ∧
    (server (buildRequest cfg payload api_endpoint) = .failure →
      (sendRequest cfg server payload api_endpoint).result = none) := by
  constructor
  · intro r h
    have hres : (sendRequest cfg server payload api_endpoint).result
        = sendResultOf (server (buildRequest cfg payload api_endpoint)) :=
      rfl
    rw [hres, h]
    cases hc : r.content with
    | none => simp [sendResultOf, effectiveResponse, hc]
    | some j => simp [sendResultOf, effectiveResponse, hc]
  · intro h
    have hres : (sendRequest cfg server payload api_endpoint).result
        = sendResultOf (server (buildRequest cfg payload api_endpoint)) :=
      rfl
    rw [hres, h]
    rfl

/-- Witness for C9: a 500 response with the non-empty body
`{"content": "err"}` is decoded and returned by `__send_request`. -/
theorem sendRequest_result_ignores_status_witness :
    (sendRequest cfg₀ srv500 [] COMPLETION_ENDPOINT).result
      = some (Json.obj [("content", Json.str "err")]) :=
  (sendRequest_result_ignores_status cfg₀ srv500 []
    COMPLETION_ENDPOINT).1
    ⟨500, some (.obj [("content", .str "err")])⟩ rfl

/-- Claim C1 counterexample: on HTTP 500 with the non-empty error body
`{"content": "err"}`, `chat_completion` returns the decoded error body
and `completion` returns `"err"` — neither call yields the absence
marker, so a non-success status is NOT treated like a transport error. -/
theorem non_success_status_not_treated_as_absence :
    (chat_completion cfg₀ srv500 [] 1 5 []).result
      = some (Json.obj [("content", Json.str "err")]) ∧
    (completion cfg₀ srv500 "p" 1 5 []).result
      = Except.ok (Json.str "err") :=
  ⟨rfl, rfl⟩

/-- Claim C1 amended: on a non-success HTTP status both calls log the
failure (the except-branch runs), but the return value is driven by the
body alone: the absence marker exactly when the error response body is
empty, the decoded body otherwise. -/
theorem non_success_status_logged_body_driven (cfg : ServerConfig)
    (server : HTTPRequest → TransportResult)
    (messages : List (List (String × String))) (temperature : ℚ)
    (max_tokens : Int) (kwargs : List (String × Json)) (prompt : String)
    (ctemperature : ℚ) (cmax_tokens : Int) (ckwargs : List (String × Json))
    (r₁ r₂ : HTTPResponse)
    (h₁ : server (buildRequest cfg
        (chatPayload messages temperature max_tokens kwargs)
        CHAT_ENDPOINT) = .success r₁)
    (hs₁ : 400 ≤ r₁.status_code) (hs₁b : r₁.status_code < 600)
    (h₂ : server (buildRequest cfg
        (completionPayload prompt ctemperature cmax_tokens ckwargs)
        COMPLETION_ENDPOINT) = .success r₂)
    (hs₂ : 400 ≤ r₂.status_code) (hs₂b : r₂.status_code < 600) :
    (chat_completion cfg server messages temperature max_tokens
        kwargs).errorLogged = true ∧
    (chat_completion cfg server messages temperature max_tokens
        kwargs).result = r₁.content ∧
    (completion cfg server prompt ctemperature cmax_tokens
        ckwargs).errorLogged = true ∧
    (completion cfg server prompt ctemperature cmax_tokens
        ckwargs).result = subscriptContent r₂.content := by
  have hcl : (chat_completion cfg server messages temperature max_tokens
      kwargs).errorLogged
      = exceptBranchRan (server (buildRequest cfg
          (chatPayload messages temperature max_tokens kwargs)
          CHAT_ENDPOINT)) := rfl
  have hcr : (chat_completion cfg server messages temperature max_tokens
      kwargs).result
      = sendResultOf (server (buildRequest cfg
          (chatPayload messages temperature max_tokens kwargs)
          CHAT_ENDPOINT)) := rfl
  have hpl : (completion cfg server prompt ctemperature cmax_tokens
      ckwargs).errorLogged
      = exceptBranchRan (server (buildRequest cfg
          (completionPayload prompt ctemperature cmax_tokens ckwargs)
          COMPLETION_ENDPOINT)) := rfl
  have hpr : (completion cfg server prompt ctemperature cmax_tokens
      ckwargs).result
      = subscriptContent (sendResultOf (server (buildRequest cfg
          (completionPayload prompt ctemperature cmax_tokens ckwargs)
          COMPLETION_ENDPOINT))) := rfl
  have hsend : ∀ r : HTTPResponse,
      sendResultOf (TransportResult.success r) = r.content := by
    intro r
    cases hc : r.content with
    | none => simp [sendResultOf, effectiveResponse, hc]
    | some j => simp [sendResultOf, effectiveResponse, hc]
  refine ⟨?_, ?_, ?_, ?_⟩
  · rw [hcl, h₁]
    simp only [exceptBranchRan, raisesForStatus, decide_eq_true_eq]
    exact ⟨hs₁, hs₁b⟩
  · rw [hcr, h₁, hsend]
  · rw [hpl, h₂]
    simp only [exceptBranchRan, raisesForStatus, decide_eq_true_eq]
    exact ⟨hs₂, hs₂b⟩
  · rw [hpr, h₂, hsend]

/-- Witness for the amended C1: against the 500-with-body stub, both
calls log the failure and return the decoded error body. -/
theorem non_success_status_logged_body_driven_witness :
    (chat_completion cfg₀ srv500 [] 1 5 []).errorLogged = true ∧
    (chat_completion cfg₀ srv500 [] 1 5 []).result
      = some (Json.obj [("content", Json.str "err")]) ∧
    (completion cfg₀ srv500 "p" 1 5 []).errorLogged = true ∧
    (completion cfg₀ srv500 "p" 1 5 []).result
      = Except.ok (Json.str "err") :=
  non_success_status_logged_body_driven cfg₀ srv500 [] 1 5 [] "p" 1 5 []
    ⟨500, some (.obj [("content", .str "err")])⟩
    ⟨500, some (.obj [("content", .str "err")])⟩
    rfl (by decide) (by decide) rfl (by decide) (by decide)

/-- Claim C5 counterexample: when the transport fails, `completion` does
NOT return the absence marker — it subscripts the `None` returned by
`__send_request` and a `TypeError` escapes to the caller. -/
theorem transport_failure_completion_raises :
    (completion cfg₀ srvDown "p" 1 5 []).result
      = Except.error PyError.typeError :=
  rfl

/-- Claim C5 amended: a transport failure is caught and logged inside
`__send_request`, which returns the absence marker; `chat_completion`
passes it through and no exception escapes it, but `completion` then
raises a `TypeError` when it subscripts `None` with `"content"`. -/
theorem transport_failure_caught_in_sendRequest (cfg : ServerConfig)
    (server : HTTPRequest → TransportResult)
    (messages : List (List (String × String))) (temperature : ℚ)
    (max_tokens : Int) (kwargs : List (String × Json)) (prompt : String)
    (ctemperature : ℚ) (cmax_tokens : Int)
    (ckwargs : List (String × Json))
    (h : ∀ q, server q = TransportResult.failure) :
    (chat_completion cfg server messages temperature max_tokens
        kwargs).result = none ∧
    (chat_completion cfg server messages temperature max_tokens
        kwargs).errorLogged = true ∧
    (completion cfg server prompt ctemperature cmax_tokens
        ckwargs).errorLogged = true ∧
    (completion cfg server prompt ctemperature cmax_tokens
        ckwargs).result = Except.error PyError.typeError := by
  have hcr : (chat_completion cfg server messages temperature max_tokens
      kwargs).result
      = sendResultOf (server (buildRequest cfg
          (chatPayload messages temperature max_tokens kwargs)
          CHAT_ENDPOINT)) := rfl
  have hcl : (chat_completion cfg server messages temperature max_tokens
      kwargs).errorLogged
      = exceptBranchRan (server (buildRequest cfg
          (chatPayload messages temperature max_tokens kwargs)
          CHAT_ENDPOINT)) := rfl
  have hpl : (completion cfg server prompt ctemperature cmax_tokens
      ckwargs).errorLogged
      = exceptBranchRan (server (buildRequest cfg
          (completionPayload prompt ctemperature cmax_tokens ckwargs)
          COMPLETION_ENDPOINT)) := rfl
  have hpr : (completion cfg server prompt ctemperature cmax_tokens
      ckwargs).result
      = subscriptContent (sendResultOf (server (buildRequest cfg
          (completionPayload prompt ctemperature cmax_tokens ckwargs)
          COMPLETION_ENDPOINT))) := rfl
  refine ⟨?_, ?_, ?_, ?_⟩
  · rw [hcr, h]
    rfl
  · rw [hcl, h]
    rfl
  · rw [hpl, h]
    rfl
  · rw [hpr, h]
    rfl

/-- Witness for the amended C5: against the always-failing transport,
`chat_completion` returns `none` with the failure logged, and
`completion` raises `TypeError`. -/
theorem transport_failure_caught_in_sendRequest_witness :
    (chat_completion cfg₀ srvDown [] 1 5 []).result = none ∧
    (chat_completion cfg₀ srvDown [] 1 5 []).errorLogged = true ∧
    (completion cfg₀ srvDown "p" 1 5 []).errorLogged = true ∧
    (completion cfg₀ srvDown "p" 1 5 []).result
      = Except.error PyError.typeError :=
  transport_failure_caught_in_sendRequest cfg₀ srvDown [] 1 5 [] "p" 1 5 []
    (fun _ => rfl)

/-- Claim C8 counterexample: on a 200 response whose JSON-object body
lacks the key `"content"`, `completion` raises a `KeyError` — an
exception crosses the client's public boundary. -/
theorem missing_content_key_completion_raises :
    (completion cfg₀ srvNoField "p" 1 5 []).result
      = Except.error PyError.keyError :=
  rfl

/-- Claim C8 amended: no exception crosses `__send_request` itself and
`chat_completion` always returns its value unmodified (its result type is
exception-free), but `completion` returns normally exactly when the
effective response body is a JSON object containing `"content"`; in every
other case a `TypeError` or `KeyError` escapes. -/
theorem public_boundary_amended (cfg : ServerConfig)
    (server : HTTPRequest → TransportResult) (prompt : String)
    (temperature : ℚ) (max_tokens : Int) (kwargs : List (String × Json))
    (messages : List (List (String × String))) (ctemperature : ℚ)
    (cmax_tokens : Int) (ckwargs : List (String × Json)) :
    (chat_completion cfg server messages ctemperature cmax_tokens
        ckwargs).result
      = (sendRequest cfg server
          (chatPayload messages ctemperature cmax_tokens ckwargs)
          CHAT_ENDPOINT).result ∧
    ((∃ v, (completion cfg server prompt temperature max_tokens
        kwargs).result = Except.ok v)
      ↔ ∃ fields v,
          (sendRequest cfg server
            (completionPayload prompt temperature max_tokens kwargs)
            COMPLETION_ENDPOINT).result = some (Json.obj fields)
          ∧ dictLookup fields "content" = some v) := by
  constructor
  · rfl
  · have hres : (completion cfg server prompt temperature max_tokens
        kwargs).result
        = subscriptContent ((sendRequest cfg server
            (completionPayload prompt temperature max_tokens kwargs)
            COMPLETION_ENDPOINT).result) := rfl
    rw [hres]
    cases hsr : (sendRequest cfg server
        (completionPayload prompt temperature max_tokens kwargs)
        COMPLETION_ENDPOINT).result with
    | none =>
      constructor
      · rintro ⟨w, hw⟩
        simp [subscriptContent] at hw
      · rintro ⟨fields, v, hfe, hl⟩
        exact absurd hfe (by simp)
    | some j =>
      cases j with
      | obj fields =>
        cases hf : dictLookup fields "content" with
        | some v =>
          constructor
          · intro hex
            exact ⟨fields, v, rfl, hf⟩
          · intro hex
            refine ⟨v, ?_⟩
            simp [subscriptContent, hf]
        | none =>
          constructor
          · rintro ⟨w, hw⟩
            simp [subscriptContent, hf] at hw
          · rintro ⟨fields2, v2, hfe, hl⟩
            have hfields : fields = fields2 := by
              simpa using hfe
            rw [← hfields, hf] at hl
            exact absurd hl (by simp)
      | null =>
        constructor
        · rintro ⟨w, hw⟩
          simp [subscriptContent] at hw
        · rintro ⟨fields2, v2, hfe, hl⟩
          exact absurd hfe (by simp)
      | bool b =>
        constructor
        · rintro ⟨w, hw⟩
          simp [subscriptContent] at hw
        · rintro ⟨fields2, v2, hfe, hl⟩
          exact absurd hfe (by simp)
      | num q =>
        constructor
        · rintro ⟨w, hw⟩
          simp [subscriptContent] at hw
        · rintro ⟨fields2, v2, hfe, hl⟩
          exact absurd hfe (by simp)
      | str s =>
        constructor
        · rintro ⟨w, hw⟩
          simp [subscriptContent] at hw
        · rintro ⟨fields2, v2, hfe, hl⟩
          exact absurd hfe (by simp)
      | arr elems =>
        constructor
        · rintro ⟨w, hw⟩
          simp [subscriptContent] at hw
        · rintro ⟨fields2, v2, hfe, hl⟩
          exact absurd hfe (by simp)

/-- Witness for the amended C8: against the 200/`{"content": "hello"}`
stub the body is an object containing `"content"`, hence `completion`
returns normally. -/
theorem public_boundary_amended_witness :
    ∃ v, (completion cfg₀ srvHello "p" 1 5 []).result = Except.ok v :=
  (public_boundary_amended cfg₀ srvHello "p" 1 5 [] [] 1 5 []).2.mpr
    ⟨[("content", Json.str "hello")], Json.str "hello", rfl, rfl⟩

/-- Claim C10: against a transport whose response is a deterministic
function of the request alone (however its private state evolves), two
successive `completion` calls with identical arguments return identical
values. -/
theorem completion_deterministic {σ : Type} (cfg : ServerConfig)
    (server : σ → HTTPRequest → TransportResult × σ) (s0 : σ)
    (f : HTTPRequest → TransportResult)
    (hdet : ∀ s q, (server s q).1 = f q)
    (prompt : String) (temperature : ℚ) (max_tokens : Int)
    (kwargs : List (String × Json)) :
    (completionTwice cfg server s0 prompt temperature max_tokens
        kwargs).1
      = (completionTwice cfg server s0 prompt temperature max_tokens
          kwargs).2 := by
  simp only [completionTwice, completion, sendRequest, hdet]

/-- Witness for C10: the counting stub server advances its state on every
request but answers as a deterministic function of the request, and the
two calls agree. -/
theorem completion_deterministic_witness :
    (completionTwice cfg₀ srvStateful 0 "p" 1 5 []).1
      = (completionTwice cfg₀ srvStateful 0 "p" 1 5 []).2 :=
  completion_deterministic cfg₀ srvStateful 0
    (fun _ => .success ⟨200, some (.obj [("content", .str "hello")])⟩)
    (fun _ _ => rfl) "p" 1 5 []

end RemoteInference
